import Mathlib

/-
Verification development for the agentic blog writer pipeline.

Shallow embedding of:
  app/models/article_schemas.py     (pydantic data model)
  app/services/workflow_data_manager.py  (checkpoint store)
  app/services/web_scraping_service.py   (optional augment phase helper)
  app/workflows/article_creation_workflow.py (orchestrator and phases)

Conventions of the embedding:
  - pydantic models become Lean structures; Optional[T] becomes Option T;
    python float (relevance_score) is embedded as Rat (no claim computes
    with it).
  - an external agent call (Runner.run + final_output_as) is embedded as
    an oracle function; a raised exception or falsy result is Option.none.
  - python exceptions that the code catches or propagates are made
    explicit with the PyResult type; a try/except block becomes a match
    on a PyResult.
-/

namespace AgenticBlog

/-- Data model: SectionPlan from article_schemas.py. -/
structure SectionPlan where
  section_id : Int
  title : String
  key_points : List String
  research_queries : Option (List String)
deriving Repr, DecidableEq

/-- Data model: ArticleBrief from article_schemas.py. -/
structure ArticleBrief where
  topic : String
  keywords : Option (List String)
  target_audience : Option String
  tone : Option String
  desired_length_words : Option Int
deriving Repr, DecidableEq

/-- Data model: SectionPlans from article_schemas.py. -/
structure SectionPlans where
  section_plans : List SectionPlan
  article_brief : ArticleBrief
deriving Repr, DecidableEq

/-- Data model: ResearchFinding from article_schemas.py. -/
structure ResearchFinding where
  source_url : Option String
  snippet : String
  relevance_score : Option Rat
  scraped_content : Option String
deriving Repr, DecidableEq

/-- Data model: SectionResearchNotes from article_schemas.py. -/
structure SectionResearchNotes where
  section_id : String
  findings : List ResearchFinding
  summary : Option String
deriving Repr, DecidableEq

/-- Data model: ResearchNotes from article_schemas.py. -/
structure ResearchNotes where
  notes_by_section : List SectionResearchNotes
deriving Repr, DecidableEq

/-- Data model: SythesizedSection from article_schemas.py (name kept as in source). -/
structure SythesizedSection where
  section_id : Int
  title : String
  content : String
deriving Repr, DecidableEq

/-- Data model: SythesizedArticle from article_schemas.py. -/
structure SythesizedArticle where
  sections : List SythesizedSection
  full_text_for_editing : Option String
deriving Repr, DecidableEq

/-- Data model: FinalArticle from article_schemas.py. -/
structure FinalArticle where
  title : String
  meta_description : String
  meta_keywords : List String
  image_description : String
  table_of_contents : List String
  tldr : String
  article_body : String
  conclusion : String
  references : List String
  full_text_markdown : String
deriving Repr, DecidableEq

/-- Data model: FinalArticleWithGemini from article_schemas.py. -/
structure FinalArticleWithGemini where
  gemini_article : String
  gemini_article_html : Option String
deriving Repr, DecidableEq

/-- JSON values, as written by model_dump_json and read by json.load.
Numbers are embedded as Int (the persisted plan artifacts only carry
integers and strings). -/
inductive Json where
  | null : Json
  | bool (b : Bool) : Json
  | num (n : Int) : Json
  | str (s : String) : Json
  | arr (items : List Json) : Json
  | obj (fields : List (String × Json)) : Json
deriving Repr

/-- Field lookup on a JSON object, as pydantic validation reads keys. -/
def Json.getField (j : Json) (key : String) : Option Json :=
  match j with
  | .obj fields => fields.lookup key
  | _ => none

/-- Decoder for a JSON string (pydantic str field validation). -/
def decodeStr : Json → Option String
  | .str s => some s
  | _ => none

/-- Decoder for a JSON integer (pydantic int field validation). -/
def decodeInt : Json → Option Int
  | .num n => some n
  | _ => none

/-- Decoder for a list of JSON strings. -/
def decodeStrs : List Json → Option (List String)
  | [] => some []
  | j :: rest =>
    match decodeStr j, decodeStrs rest with
    | some s, some ss => some (s :: ss)
    | _, _ => none

/-- Decoder for a JSON array of strings (pydantic List[str] validation). -/
def decodeStrList : Json → Option (List String)
  | .arr items => decodeStrs items
  | _ => none

/-- Decoder for Optional[List[str]]: null maps to none. -/
def decodeOptStrList : Json → Option (Option (List String))
  | .null => some none
  | j => (decodeStrList j).map some

/-- Decoder for Optional[str]: null maps to none. -/
def decodeOptStr : Json → Option (Option String)
  | .null => some none
  | j => (decodeStr j).map some

/-- Decoder for Optional[int]: null maps to none. -/
def decodeOptInt : Json → Option (Option Int)
  | .null => some none
  | j => (decodeInt j).map some

/-- Encoder for Optional[List[str]] as model_dump_json writes it. -/
def encodeOptStrList : Option (List String) → Json
  | none => .null
  | some xs => .arr (xs.map Json.str)

/-- Encoder for Optional[str]. -/
def encodeOptStr : Option String → Json
  | none => .null
  | some s => .str s

/-- Encoder for Optional[int]. -/
def encodeOptInt : Option Int → Json
  | none => .null
  | some n => .num n

/-- Serialization of a SectionPlan, following model_dump_json field order. -/
def encodeSectionPlan (p : SectionPlan) : Json :=
  .obj [("section_id", .num p.section_id),
        ("title", .str p.title),
        ("key_points", .arr (p.key_points.map Json.str)),
        ("research_queries", encodeOptStrList p.research_queries)]

/-- Validation of a SectionPlan from JSON content (model_validate). -/
def decodeSectionPlan (j : Json) : Option SectionPlan :=
  (j.getField "section_id").bind fun f1 =>
  (decodeInt f1).bind fun sid =>
  (j.getField "title").bind fun f2 =>
  (decodeStr f2).bind fun t =>
  (j.getField "key_points").bind fun f3 =>
  (decodeStrList f3).bind fun kps =>
  (j.getField "research_queries").bind fun f4 =>
  (decodeOptStrList f4).bind fun rqs =>
  some { section_id := sid, title := t, key_points := kps, research_queries := rqs }

/-- Serialization of an ArticleBrief. -/
def encodeArticleBrief (b : ArticleBrief) : Json :=
  .obj [("topic", .str b.topic),
        ("keywords", encodeOptStrList b.keywords),
        ("target_audience", encodeOptStr b.target_audience),
        ("tone", encodeOptStr b.tone),
        ("desired_length_words", encodeOptInt b.desired_length_words)]

/-- Validation of an ArticleBrief from JSON content. -/
def decodeArticleBrief (j : Json) : Option ArticleBrief :=
  (j.getField "topic").bind fun f1 =>
  (decodeStr f1).bind fun t =>
  (j.getField "keywords").bind fun f2 =>
  (decodeOptStrList f2).bind fun kw =>
  (j.getField "target_audience").bind fun f3 =>
  (decodeOptStr f3).bind fun ta =>
  (j.getField "tone").bind fun f4 =>
  (decodeOptStr f4).bind fun tn =>
  (j.getField "desired_length_words").bind fun f5 =>
  (decodeOptInt f5).bind fun dl =>
  some { topic := t, keywords := kw, target_audience := ta, tone := tn,
         desired_length_words := dl }

/-- Decoder for a list of section plans. -/
def decodePlanItems : List Json → Option (List SectionPlan)
  | [] => some []
  | j :: rest =>
    match decodeSectionPlan j, decodePlanItems rest with
    | some p, some ps => some (p :: ps)
    | _, _ => none

/-- Serialization of the planning phase artifact SectionPlans. -/
def encodeSectionPlans (sp : SectionPlans) : Json :=
  .obj [("section_plans", .arr (sp.section_plans.map encodeSectionPlan)),
        ("article_brief", encodeArticleBrief sp.article_brief)]

/-- Validation of SectionPlans from JSON content. -/
def decodeSectionPlans (j : Json) : Option SectionPlans :=
  (j.getField "section_plans").bind fun f1 =>
  (match f1 with
   | .arr items => decodePlanItems items
   | _ => none).bind fun plans =>
  (j.getField "article_brief").bind fun f2 =>
  (decodeArticleBrief f2).bind fun brief =>
  some { section_plans := plans, article_brief := brief }

/-- Python exception kinds relevant to workflow_data_manager.py. -/
inductive PyErr where
  | osError : PyErr
  | jsonDecodeError : PyErr
  | validationError : PyErr
deriving Repr, DecidableEq

/-- Outcome of a python expression: a value, or a raised exception. -/
inductive PyResult (α : Type) where
  | ok (a : α) : PyResult α
  | raised (e : PyErr) : PyResult α
deriving Repr

/-- Observable state of one persisted checkpoint file when it is read:
the file may be missing, the read itself may fail at the I/O level,
the content may fail json parsing, or it parses to a JSON value. -/
inductive ReadOutcome where
  | missing : ReadOutcome
  | ioError : ReadOutcome
  | badJson : ReadOutcome
  | json (j : Json) : ReadOutcome
deriving Repr

/-- Body of the try block in WorkflowDataManager.load_data: open and
json.load the file, then validate through the output model; each step
raises on failure (open raises OSError, json.load raises
JSONDecodeError, model_validate raises a validation error). -/
def loadDataTryBody {α : Type} (r : ReadOutcome) (decode : Json → Option α) :
    PyResult (Option α) :=
  match r with
  | .missing => .ok none
  | .ioError => .raised .osError
  | .badJson => .raised .jsonDecodeError
  | .json j =>
    match decode j with
    | some v => .ok (some v)
    | none => .raised .validationError

/-- WorkflowDataManager.load_data: the exists() guard runs outside the
try block; the blanket except Exception catches everything the body
raises and returns None to trigger regeneration. -/
def loadDataEx {α : Type} (r : ReadOutcome) (decode : Json → Option α) :
    PyResult (Option α) :=
  match r with
  | .missing => .ok none
  | r' =>
    match loadDataTryBody r' decode with
    | .ok v => .ok v
    | .raised _ => .ok none

/-- Persisted state of one checkpoint file within the store (no I/O
fault): absent, unreadable content, or parsed JSON content. -/
inductive Stored where
  | malformed : Stored
  | content (j : Json) : Stored
deriving Repr

/-- The checkpoint store: one optional record per (title slug, phase). -/
def Store : Type := String × String → Option Stored

/-- View of a stored record as a read outcome (the fault-free read path). -/
def storedRead (s : Option Stored) : ReadOutcome :=
  match s with
  | none => .missing
  | some .malformed => .badJson
  | some (.content j) => .json j

/-- WorkflowDataManager.save_data for a planning artifact: writes the
model_dump_json serialization under data/(slug)/(phase).json. -/
def saveData (store : Store) (slug phase : String) (m : SectionPlans) : Store :=
  fun k => if k = (slug, phase) then some (.content (encodeSectionPlans m)) else store k

/-- WorkflowDataManager.load_data for a planning artifact on a healthy
persistence medium: value view of loadDataEx. -/
def loadData (store : Store) (slug phase : String) : Option SectionPlans :=
  match loadDataEx (storedRead (store (slug, phase))) decodeSectionPlans with
  | .ok v => v
  | .raised _ => none

/-- WorkflowDataManager.save_data with the persistence medium modeled:
open(file_path, "w") is not wrapped in any try, so an I/O failure
propagates the raised OSError to the caller. -/
def saveDataEx (ioFails : Bool) (store : Store) (slug phase : String)
    (m : SectionPlans) : PyResult Store :=
  if ioFails then .raised .osError else .ok (saveData store slug phase m)

/-- ArticleCreationWorkflow._plan_article: consult the cache first; on a
hit return the cached artifact without calling the planner agent; on a
miss invoke the generator (agent), persist a success, return None on an
exception. The Bool records whether the generator was invoked. -/
def planArticlePhase (store : Store) (slug : String) (gen : Option SectionPlans) :
    Option SectionPlans × Bool × Store :=
  match loadData store slug "planning" with
  | some v => (some v, false, store)
  | none =>
    match gen with
    | some out => (some out, true, saveData store slug "planning" out)
    | none => (none, true, store)

/-- Placeholder record created for a section that reached final failure
in _research_sections: empty findings and a summary giving the failure
cause (the python code appends a 100-character truncation of the last
exception text, abstracted here since attempts carry no message). -/
def emptyNote (sectionIdStr : String) (maxRetries : Nat) : SectionResearchNotes :=
  { section_id := sectionIdStr
    findings := []
    summary := some ("Research failed after " ++ toString maxRetries ++
      " retries and recovery attempt") }

/-- Outcome of the per-section retry loop of _research_sections:
the note appended to all_section_notes (none when nothing was appended),
whether the section ended researched with a real result, the plan used
by each attempt in order, and whether the recovery agent was invoked. -/
structure SectionOutcome where
  note : Option SectionResearchNotes
  succeeded : Bool
  attemptPlans : List SectionPlan
  recoveryInvoked : Bool
deriving Repr, DecidableEq

/-- The while loop of _research_sections for one section, transcribed
from article_creation_workflow.py lines 232-283. att gives the outcome
of one Runner.run attempt as a function of the current section plan and
the current retry_count (none models a raised exception or a falsy
note); recovery gives the result of _attempt_research_recovery. On the
increment that makes retry_count equal max_retries, recovery runs
first; if it fails the loop breaks without appending any note. When
retry_count exceeds max_retries, the placeholder note is appended. -/
def researchLoop (att : SectionPlan → Nat → Option SectionResearchNotes)
    (recovery : SectionPlan → Option SectionPlan)
    (maxRetries : Nat) (sectionIdStr : String)
    (retryCount : Nat) (plan : SectionPlan) (recUsed : Bool)
    (tried : List SectionPlan) : SectionOutcome :=
  if h : retryCount ≤ maxRetries then
    match att plan retryCount with
    | some note =>
      { note := some note, succeeded := true,
        attemptPlans := tried ++ [plan], recoveryInvoked := recUsed }
    | none =>
      if h2 : retryCount + 1 ≤ maxRetries then
        if retryCount + 1 = maxRetries then
          match recovery plan with
          | some improved =>
            researchLoop att recovery maxRetries sectionIdStr
              (retryCount + 1) improved true (tried ++ [plan])
          | none =>
            { note := none, succeeded := false,
              attemptPlans := tried ++ [plan], recoveryInvoked := true }
        else
          researchLoop att recovery maxRetries sectionIdStr
            (retryCount + 1) plan recUsed (tried ++ [plan])
      else
        { note := some (emptyNote sectionIdStr maxRetries), succeeded := false,
          attemptPlans := tried ++ [plan], recoveryInvoked := recUsed }
  else
    { note := none, succeeded := false, attemptPlans := tried,
      recoveryInvoked := recUsed }
termination_by maxRetries + 1 - retryCount
decreasing_by
  all_goals omega

/-- Research of one section: the loop entered with retry_count 0, the
original plan, and no attempts made. -/
def researchSection (att : SectionPlan → Nat → Option SectionResearchNotes)
    (recovery : SectionPlan → Option SectionPlan)
    (maxRetries : Nat) (plan : SectionPlan) : SectionOutcome :=
  researchLoop att recovery maxRetries (toString plan.section_id) 0 plan false []

/-- The per-section research path of _research_sections: iterate the
section plans in order, collecting exactly the notes the loop appended
to all_section_notes. -/
def researchSectionsNotes (att : SectionPlan → Nat → Option SectionResearchNotes)
    (recovery : SectionPlan → Option SectionPlan)
    (maxRetries : Nat) (plans : List SectionPlan) : List SectionResearchNotes :=
  plans.filterMap fun p => (researchSection att recovery maxRetries p).note

/-- Python truthiness of an optional string: None and the empty string
are falsy. -/
def truthyOptStr : Option String → Bool
  | none => false
  | some s => !(s == "")

/-- WebScrapingService._extract_urls_from_research: collect the truthy
source urls of every finding of every section. The python code builds a
set; the embedding keeps first occurrences, which preserves membership
and emptiness. -/
def extractUrls (notes : ResearchNotes) : List String :=
  ((notes.notes_by_section.flatMap fun sn =>
    sn.findings.filterMap fun f =>
      if truthyOptStr f.source_url then f.source_url else none)).dedup

/-- WebScrapingService._update_notes_with_scraped_content applied to the
deep copy made by extract_and_scrape_urls: each finding with a truthy
source url present in the scraped-content map gets its scraped_content
replaced; everything else is left untouched. The map m sends a url to
its scraped cleaned content, none when that url was not scraped. -/
def updateNotes (notes : ResearchNotes) (m : String → Option String) : ResearchNotes :=
  { notes_by_section := notes.notes_by_section.map fun sn =>
      { sn with findings := sn.findings.map fun f =>
          match f.source_url with
          | some u =>
            if u == "" then f
            else
              match m u with
              | some c => { f with scraped_content := some c }
              | none => f
          | none => f } }

/-- Behavior of the scraping collaborator inside _scrape_web_content:
either extract_and_scrape_urls raises, or it completes having scraped
the given url-to-content map (empty results of _scrape_urls give a map
that is none everywhere). -/
inductive ScrapeOutcome where
  | raises : ScrapeOutcome
  | scrapedMap (m : String → Option String) : ScrapeOutcome

/-- ArticleCreationWorkflow._scrape_web_content with the cache passed
explicitly: skip on a missing input artifact, return a cache hit, return
the original notes when no urls exist, and on the service path return
the augmented deep copy; a raised exception falls back to the original
notes. A pydantic model instance is always truthy, so the augmented
notes are always returned when the service completes. -/
def scrapeWebContent (originalNotes : Option ResearchNotes)
    (cache : Option ResearchNotes) (outcome : ScrapeOutcome) :
    Option ResearchNotes :=
  match originalNotes with
  | none => none
  | some notes =>
    match cache with
    | some cached => some cached
    | none =>
      if (extractUrls notes).isEmpty then some notes
      else
        match outcome with
        | .raises => some notes
        | .scrapedMap m => some (updateNotes notes m)

/-- Outcome of one dispatched per-section synthesis unit: the
Runner.run task itself raised (asyncio.gather then propagates the
exception to the awaiting phase), or the task finished and
final_output_as either produced a section or raised (none). -/
inductive UnitOutcome where
  | runRaised : UnitOutcome
  | parsed (s : Option SythesizedSection) : UnitOutcome
deriving Repr, DecidableEq

/-- Whether the unit's task raised during execution. -/
def UnitOutcome.isRaised : UnitOutcome → Bool
  | .runRaised => true
  | _ => false

/-- The synthesized section successfully extracted from a finished unit. -/
def UnitOutcome.extracted : UnitOutcome → Option SythesizedSection
  | .parsed s => s
  | .runRaised => none

/-- Whether the unit finished but its output extraction failed (the
except branch of the aggregation loop, counted in failed_syntheses). -/
def UnitOutcome.isParseFailure : UnitOutcome → Bool
  | .parsed none => true
  | _ => false

/-- The plans that _synthesize_sections pairs with a research record:
a plan is pairable when some research note carries its section id as a
string (membership in research_notes_map); pairable plans keep their
declaration order because the dispatch loop walks section_plans in
order. -/
def pairablePlans (plans : List SectionPlan) (notes : List SectionResearchNotes) :
    List SectionPlan :=
  plans.filter fun pl => notes.any fun n => n.section_id == toString pl.section_id

/-- Embedding of await asyncio.gather(*synthesis_tasks): gather returns
the result list in the order the tasks were dispatched, whatever order
the tasks complete in; the completionOrder argument records a completion
schedule and, per the documented gather contract, does not influence the
returned list. -/
def gatherResults (outcomes : Nat → UnitOutcome) (numTasks : Nat)
    (completionOrder : List Nat) : List UnitOutcome :=
  (List.range numTasks).map outcomes

/-- Separator used for full_text_for_editing. -/
def sepLine : String := "\n\n---\n\n"

/-- Cache-miss body of _synthesize_sections (lines 371-429): dispatch
one unit per pairable plan, gather, tolerate per-unit extraction
failures while counting them, fail the phase when nothing was dispatched,
when the gather raised, or when every extraction failed; otherwise build
the article whose full text joins the successful sections in result
order. Returns the article together with the reported failed count. -/
def synthesizeCore (plans : List SectionPlan) (notes : List SectionResearchNotes)
    (outcomes : Nat → UnitOutcome) (completionOrder : List Nat) :
    Option (SythesizedArticle × Nat) :=
  let tasks := pairablePlans plans notes
  if tasks.isEmpty then none
  else
    let results := gatherResults outcomes tasks.length completionOrder
    if results.any (fun r => r.isRaised) then none
    else
      let successes := results.filterMap (fun r => r.extracted)
      let failedCount := results.countP (fun r => r.isParseFailure)
      if successes.isEmpty then none
      else
        some ({ sections := successes,
                full_text_for_editing :=
                  some (String.intercalate sepLine (successes.map fun s => s.content)) },
              failedCount)

/-- ArticleCreationWorkflow._synthesize_sections: skip when plans or
research notes are missing, return a cache hit, otherwise run the
cache-miss body. -/
def synthesizeSections (plansOpt : Option SectionPlans)
    (notesOpt : Option ResearchNotes) (cache : Option SythesizedArticle)
    (outcomes : Nat → UnitOutcome) (completionOrder : List Nat) :
    Option SythesizedArticle :=
  match plansOpt, notesOpt with
  | some plans, some notes =>
    match cache with
    | some cached => some cached
    | none =>
      (synthesizeCore plans.section_plans notes.notes_by_section outcomes
        completionOrder).map fun pr => pr.1
  | _, _ => none

/-- Spec-side ordering definition for claim C5 (written from the spec
sentence, to be compared with the implementation): the bodies of the
successfully synthesized sections listed in original plan declaration
order, taking for the i-th pairable plan the outcome of its unit. -/
def planOrderBodies (plans : List SectionPlan) (notes : List SectionResearchNotes)
    (outcomes : Nat → UnitOutcome) : List String :=
  (List.range (pairablePlans plans notes).length).filterMap fun i =>
    match outcomes i with
    | .parsed (some s) => some s.content
    | _ => none

/-- Cache-first artifact of _plan_article viewed at the run level: a
cache hit returns the cached plan; otherwise the planner agent outcome
(none when it raised) is the artifact. -/
def planPhaseResult (cache gen : Option SectionPlans) : Option SectionPlans :=
  match cache with
  | some c => some c
  | none => gen

/-- Whether _plan_article invoked the planner agent (exactly on a cache miss). -/
def planGenInvoked (cache : Option SectionPlans) : Bool :=
  cache.isNone

/-- Artifact of _research_sections viewed at the run level: skip when no
section plan exists, return a cache hit, otherwise the outcome of the
research body (batch mode may fail to none; the per-section internals
are modeled by researchSectionsNotes). -/
def researchPhaseResult (plansOpt : Option SectionPlans)
    (cache body : Option ResearchNotes) : Option ResearchNotes :=
  match plansOpt with
  | none => none
  | some _ =>
    match cache with
    | some c => some c
    | none => body

/-- Whether _research_sections entered its generation path (research
agents run exactly when plans exist and the cache misses). -/
def researchGenInvoked (plansOpt : Option SectionPlans)
    (cache : Option ResearchNotes) : Bool :=
  plansOpt.isSome && cache.isNone

/-- Whether _scrape_web_content called the scraping service (only when
notes exist, the cache misses, and some url was extracted). -/
def scrapeGenInvoked (notesOpt : Option ResearchNotes)
    (cache : Option ResearchNotes) : Bool :=
  match notesOpt with
  | none => false
  | some notes => cache.isNone && !(extractUrls notes).isEmpty

/-- Whether _synthesize_sections dispatched synthesis units (only when
plans and notes exist, the cache misses, and some plan is pairable). -/
def synthGenInvoked (plansOpt : Option SectionPlans)
    (notesOpt : Option ResearchNotes) (cache : Option SythesizedArticle) : Bool :=
  match plansOpt, notesOpt with
  | some plans, some notes =>
    cache.isNone &&
      !(pairablePlans plans.section_plans notes.notes_by_section).isEmpty
  | _, _ => false

/-- ArticleCreationWorkflow._create_openai_final_article: skip when the
synthesized article or its full text is missing or empty, return a
cache hit, otherwise the article-synthesizer agent outcome. -/
def createFinalArticle (synthOpt : Option SythesizedArticle)
    (cache gen : Option FinalArticle) : Option FinalArticle :=
  match synthOpt with
  | none => none
  | some art =>
    if truthyOptStr art.full_text_for_editing then
      match cache with
      | some c => some c
      | none => gen
    else none

/-- Whether _create_openai_final_article invoked its agent. -/
def finalGenInvoked (synthOpt : Option SythesizedArticle)
    (cache : Option FinalArticle) : Bool :=
  match synthOpt with
  | none => false
  | some art => truthyOptStr art.full_text_for_editing && cache.isNone

/-- ArticleCreationWorkflow._enhance_article_with_gemini: skip when the
final article or its markdown is missing or empty, return a cache hit,
otherwise call the enhancer (gen none models a raised exception, an
empty string is rejected) and render its markdown to html. -/
def enhanceWithGemini (finalOpt : Option FinalArticle)
    (cache : Option FinalArticleWithGemini) (gen : Option String)
    (mdToHtml : String → String) : Option FinalArticleWithGemini :=
  match finalOpt with
  | none => none
  | some fa =>
    if fa.full_text_markdown == "" then none
    else
      match cache with
      | some c => some c
      | none =>
        match gen with
        | none => none
        | some md =>
          if md == "" then none
          else some { gemini_article := md, gemini_article_html := some (mdToHtml md) }

/-- Whether _enhance_article_with_gemini invoked the enhancer. -/
def geminiGenInvoked (finalOpt : Option FinalArticle)
    (cache : Option FinalArticleWithGemini) : Bool :=
  match finalOpt with
  | none => false
  | some fa => !(fa.full_text_markdown == "") && cache.isNone

/-- External collaborators and per-phase cache contents that drive one
execution of ArticleCreationWorkflow.run. -/
structure RunOracles where
  planCache : Option SectionPlans
  planGen : Option SectionPlans
  researchCache : Option ResearchNotes
  researchBody : Option ResearchNotes
  scrapeCache : Option ResearchNotes
  scrapeOutcome : ScrapeOutcome
  synthCache : Option SythesizedArticle
  synthOutcomes : Nat → UnitOutcome
  synthCompletion : List Nat
  finalCache : Option FinalArticle
  finalGen : Option FinalArticle
  geminiCache : Option FinalArticleWithGemini
  geminiGen : Option String
  mdToHtml : String → String

/-- Observable trace of one execution of ArticleCreationWorkflow.run:
which phases were started (display_phase_start), which phases invoked
their generator, and each phase's artifact. -/
structure RunTrace where
  phasesStarted : List Nat
  gensInvoked : List Nat
  planArtifact : Option SectionPlans
  researchArtifact : Option ResearchNotes
  scrapeArtifact : Option ResearchNotes
  synthArtifact : Option SythesizedArticle
  finalArtifact : Option FinalArticle
  geminiArtifact : Option FinalArticleWithGemini

/-- ArticleCreationWorkflow.run: phase 1 runs first and a missing plan
artifact returns from run immediately; otherwise phases 2 to 6 all
start unconditionally, each phase consuming the artifacts exactly as the
method calls at lines 57-118 wire them. -/
def runWorkflow (o : RunOracles) : RunTrace :=
  match planPhaseResult o.planCache o.planGen with
  | none =>
    { phasesStarted := [1]
      gensInvoked := if planGenInvoked o.planCache then [1] else []
      planArtifact := none, researchArtifact := none, scrapeArtifact := none
      synthArtifact := none, finalArtifact := none, geminiArtifact := none }
  | some p =>
    let research := researchPhaseResult (some p) o.researchCache o.researchBody
    let scrape := scrapeWebContent research o.scrapeCache o.scrapeOutcome
    let synth := synthesizeSections (some p) scrape o.synthCache o.synthOutcomes
      o.synthCompletion
    let final := createFinalArticle synth o.finalCache o.finalGen
    let gem := enhanceWithGemini final o.geminiCache o.geminiGen o.mdToHtml
    { phasesStarted := [1, 2, 3, 4, 5, 6]
      gensInvoked :=
        (if planGenInvoked o.planCache then [1] else []) ++
        (if researchGenInvoked (some p) o.researchCache then [2] else []) ++
        (if scrapeGenInvoked research o.scrapeCache then [3] else []) ++
        (if synthGenInvoked (some p) scrape o.synthCache then [4] else []) ++
        (if finalGenInvoked synth o.finalCache then [5] else []) ++
        (if geminiGenInvoked final o.geminiCache then [6] else [])
      planArtifact := some p, researchArtifact := research
      scrapeArtifact := scrape, synthArtifact := synth
      finalArtifact := final, geminiArtifact := gem }

/-- Concrete section plan used by closed witnesses. -/
def samplePlan : SectionPlan :=
  { section_id := 1, title := "Intro", key_points := ["a"],
    research_queries := some ["q1"] }

/-- Concrete article brief used by closed witnesses. -/
def sampleBrief : ArticleBrief :=
  { topic := "t", keywords := none, target_audience := none,
    tone := some "informative", desired_length_words := some 1000 }

/-- Concrete planning artifact used by closed witnesses. -/
def samplePlans : SectionPlans :=
  { section_plans := [samplePlan], article_brief := sampleBrief }

/-- Concrete research note used by closed witnesses. -/
def sampleNote : SectionResearchNotes :=
  { section_id := "1", findings := [], summary := some "s" }

/-- Concrete research artifact used by closed witnesses. -/
def sampleNotes : ResearchNotes :=
  { notes_by_section := [sampleNote] }

/-- Attempt oracle for the C4 witness: fail the first attempt, succeed
on the second. -/
def attSucceedLast : SectionPlan → Nat → Option SectionResearchNotes :=
  fun _ n => if n = 1 then some sampleNote else none

/-- Attempt oracle for the C4 witness: every attempt fails. -/
def attAlwaysFail : SectionPlan → Nat → Option SectionResearchNotes :=
  fun _ _ => none

/-- Improved plan returned by the recovery oracle in the C4 witness. -/
def recoveredPlan : SectionPlan :=
  { section_id := 1, title := "Intro", key_points := ["a"],
    research_queries := some ["better q"] }

/-- Recovery oracle for the C4 witness. -/
def recovImproved : SectionPlan → Option SectionPlan :=
  fun _ => some recoveredPlan

/-- Second concrete section plan, used by the C5 witness. -/
def samplePlanTwo : SectionPlan :=
  { section_id := 2, title := "Second", key_points := ["b"],
    research_queries := none }

/-- Second concrete research note, used by the C5 witness. -/
def sampleNoteTwo : SectionResearchNotes :=
  { section_id := "2", findings := [], summary := none }

/-- Unit outcomes for the C5 witness: both units succeed. -/
def outcomesBothSucceed : Nat → UnitOutcome :=
  fun i =>
    if i = 0 then UnitOutcome.parsed (some { section_id := 1, title := "Intro", content := "one" })
    else UnitOutcome.parsed (some { section_id := 2, title := "Second", content := "two" })

/-- Claim C6 as stated: whenever at least one dispatched synthesis unit
succeeds, the synthesis phase returns an article artifact (no unit's
failure discards its siblings' results). -/
def synthesisPartialToleranceClaim : Prop :=
  ∀ (plans : SectionPlans) (notes : ResearchNotes) (outcomes : Nat → UnitOutcome)
    (co : List Nat),
    (∃ i, i < (pairablePlans plans.section_plans notes.notes_by_section).length ∧
      (outcomes i).extracted.isSome = true) →
    (synthesizeSections (some plans) (some notes) none outcomes co).isSome = true

/-- Unit outcomes refuting claim C6: the first task raises, the second
succeeds. -/
def outcomesRaisedFirst : Nat → UnitOutcome :=
  fun i =>
    if i = 0 then UnitOutcome.runRaised
    else UnitOutcome.parsed (some { section_id := 2, title := "Second", content := "two" })

/-- The article built by the success branch of synthesizeCore. -/
def aggregatedArticle (plans : List SectionPlan) (notes : List SectionResearchNotes)
    (outcomes : Nat → UnitOutcome) (co : List Nat) : SythesizedArticle where
  sections :=
    (gatherResults outcomes (pairablePlans plans notes).length co).filterMap
      (fun r => r.extracted)
  full_text_for_editing :=
    some (String.intercalate sepLine
      (((gatherResults outcomes (pairablePlans plans notes).length co).filterMap
        (fun r => r.extracted)).map fun s => s.content))

/-- Unit outcomes for the C6 witness: unit 1 succeeds, unit 2 finishes
but its output extraction fails. -/
def outcomesOneParseFail : Nat → UnitOutcome :=
  fun i =>
    if i = 0 then UnitOutcome.parsed (some { section_id := 1, title := "Intro", content := "one" })
    else UnitOutcome.parsed none

/-- Claim C2 as stated: a required phase (plan, research, synthesize,
finalize) yielding no artifact terminates the run immediately, so no
later phase starts and no later generator is invoked. -/
def requiredPhaseHaltClaim : Prop :=
  ∀ o : RunOracles,
    ((runWorkflow o).planArtifact = none →
      ((runWorkflow o).phasesStarted.all fun q => q ≤ 1) = true ∧
      ((runWorkflow o).gensInvoked.all fun q => q ≤ 1) = true) ∧
    ((runWorkflow o).researchArtifact = none →
      ((runWorkflow o).phasesStarted.all fun q => q ≤ 2) = true ∧
      ((runWorkflow o).gensInvoked.all fun q => q ≤ 2) = true) ∧
    ((runWorkflow o).synthArtifact = none →
      ((runWorkflow o).phasesStarted.all fun q => q ≤ 4) = true ∧
      ((runWorkflow o).gensInvoked.all fun q => q ≤ 4) = true) ∧
    ((runWorkflow o).finalArtifact = none →
      ((runWorkflow o).phasesStarted.all fun q => q ≤ 5) = true ∧
      ((runWorkflow o).gensInvoked.all fun q => q ≤ 5) = true)

/-- Oracles refuting claim C2: the plan is cached, the research body
fails, so the research phase yields no artifact, yet the run continues
through phases 3 to 6. -/
def failingResearchOracles : RunOracles where
  planCache := some samplePlans
  planGen := none
  researchCache := none
  researchBody := none
  scrapeCache := none
  scrapeOutcome := ScrapeOutcome.raises
  synthCache := none
  synthOutcomes := fun _ => UnitOutcome.parsed none
  synthCompletion := []
  finalCache := none
  finalGen := none
  geminiCache := none
  geminiGen := none
  mdToHtml := id

theorem decodeStrs_encode (xs : List String) :
    decodeStrs (xs.map Json.str) = some xs := by
  induction xs with
  | nil => rfl
  | cons x rest ih => simp [decodeStrs, decodeStr, ih]

theorem decodeStrList_encode (xs : List String) :
    decodeStrList (.arr (xs.map Json.str)) = some xs := by
  simp [decodeStrList, decodeStrs_encode]

theorem decodeOptStrList_encode (o : Option (List String)) :
    decodeOptStrList (encodeOptStrList o) = some o := by
  cases o with
  | none => rfl
  | some xs => simp [encodeOptStrList, decodeOptStrList, decodeStrList_encode]

theorem decodeOptStr_encode (o : Option String) :
    decodeOptStr (encodeOptStr o) = some o := by
  cases o with
  | none => rfl
  | some s => rfl

theorem decodeOptInt_encode (o : Option Int) :
    decodeOptInt (encodeOptInt o) = some o := by
  cases o with
  | none => rfl
  | some n => rfl

theorem decodeSectionPlan_encode (p : SectionPlan) :
    decodeSectionPlan (encodeSectionPlan p) = some p := by
  simp [decodeSectionPlan, encodeSectionPlan, Json.getField, List.lookup,
    decodeInt, decodeStr, decodeStrList_encode, decodeOptStrList_encode]

theorem decodeArticleBrief_encode (b : ArticleBrief) :
    decodeArticleBrief (encodeArticleBrief b) = some b := by
  simp [decodeArticleBrief, encodeArticleBrief, Json.getField, List.lookup,
    decodeStr, decodeOptStrList_encode, decodeOptStr_encode, decodeOptInt_encode]

theorem decodePlanItems_encode (ps : List SectionPlan) :
    decodePlanItems (ps.map encodeSectionPlan) = some ps := by
  induction ps with
  | nil => rfl
  | cons p rest ih => simp [decodePlanItems, decodeSectionPlan_encode, ih]

theorem decodeSectionPlans_encode (sp : SectionPlans) :
    decodeSectionPlans (encodeSectionPlans sp) = some sp := by
  simp [decodeSectionPlans, encodeSectionPlans, Json.getField, List.lookup,
    decodePlanItems_encode, decodeArticleBrief_encode]

theorem updateNotes_no_content (notes : ResearchNotes) (m : String → Option String)
    (h : ∀ u, m u = none) : updateNotes notes m = notes := by
  cases notes with
  | mk secs =>
    simp only [updateNotes, ResearchNotes.mk.injEq]
    induction secs with
    | nil => rfl
    | cons sn rest ih =>
      simp only [List.map_cons, List.cons.injEq]
      refine ⟨?_, ih⟩
      cases sn with
      | mk sid fnd summ =>
        simp only [SectionResearchNotes.mk.injEq, true_and, and_true]
        induction fnd with
        | nil => rfl
        | cons f rest2 ih2 =>
          simp only [List.map_cons, List.cons.injEq]
          refine ⟨?_, ih2⟩
          cases hu : f.source_url with
          | none => rfl
          | some u => simp [hu, h u]

/-- C3: checkpoint idempotence. save_data followed by load_data with the
artifact's model type round-trips to a structurally equal value, and a
subsequent execution of the planning phase returns that persisted
artifact without invoking the planner again and without changing the
store. -/
theorem c3_checkpoint_idempotence (store : Store) (slug phase : String)
    (m : SectionPlans) (gen : Option SectionPlans) :
    loadData (saveData store slug phase m) slug phase = some m ∧
    planArticlePhase (saveData store slug "planning" m) slug gen =
      (some m, false, saveData store slug "planning" m) := by
  have h : ∀ ph, loadData (saveData store slug ph m) slug ph = some m := by
    intro ph
    simp [loadData, saveData, storedRead, loadDataEx, loadDataTryBody,
      decodeSectionPlans_encode]
  exact ⟨h phase, by simp [planArticlePhase, h "planning"]⟩

/-- C7: corruption degrades to a cache miss. When the persisted planning
artifact is unreadable or fails model validation, load_data returns none
instead of raising, and the planning phase then invokes its generator
instead of using the cache. -/
theorem c7_corruption_regenerates (store : Store) (slug : String)
    (gen : Option SectionPlans) (j : Json)
    (h : store (slug, "planning") = some Stored.malformed ∨
      (store (slug, "planning") = some (Stored.content j) ∧
        decodeSectionPlans j = none)) :
    loadData store slug "planning" = none ∧
    (planArticlePhase store slug gen).1 = gen ∧
    (planArticlePhase store slug gen).2.1 = true := by
  have hload : loadData store slug "planning" = none := by
    rcases h with h1 | ⟨h1, h2⟩
    · simp [loadData, h1, storedRead, loadDataEx, loadDataTryBody]
    · simp [loadData, h1, storedRead, loadDataEx, loadDataTryBody, h2]
  refine ⟨hload, ?_, ?_⟩ <;> cases gen <;> simp [planArticlePhase, hload]

/-- C7 witness: a malformed persisted record concretely triggers
regeneration. -/
theorem c7_witness :
    loadData (fun _ => some Stored.malformed) "run" "planning" = none ∧
    (planArticlePhase (fun _ => some Stored.malformed) "run" (some samplePlans)).1 =
      some samplePlans ∧
    (planArticlePhase (fun _ => some Stored.malformed) "run" (some samplePlans)).2.1 =
      true :=
  c7_corruption_regenerates (fun _ => some Stored.malformed) "run"
    (some samplePlans) Json.null (Or.inl rfl)

/-- C8 counterexample: contrary to the claim, an underlying I/O failure
during load_data raises nothing at all: the blanket except catches the
OSError and the call returns none, exactly like the corruption case. No
StorageIOError type exists in the code. -/
theorem c8_counterexample :
    ¬ ∃ e : PyErr, loadDataEx ReadOutcome.ioError decodeSectionPlans =
      PyResult.raised e := by
  rintro ⟨e, h⟩
  simp [loadDataEx, loadDataTryBody] at h

/-- C8 amended: an I/O failure on load_data silently degrades to none
(indistinguishable from a miss or corruption), while an I/O failure on
save_data propagates the raised built-in OSError because save_data has
no try block; no distinct StorageIOError type exists. -/
theorem c8_amended (store : Store) (slug phase : String) (m : SectionPlans) :
    loadDataEx ReadOutcome.ioError decodeSectionPlans = PyResult.ok none ∧
    saveDataEx true store slug phase m = PyResult.raised PyErr.osError ∧
    saveDataEx false store slug phase m = PyResult.ok (saveData store slug phase m) :=
  ⟨rfl, rfl, rfl⟩

/-- C10: load_data is total at its public interface. Whatever the read
outcome (missing file, I/O failure, malformed JSON, or content that may
fail validation) and whatever the output model decoder, load_data
returns a value and never propagates an exception. -/
theorem c10_load_data_total {α : Type} (r : ReadOutcome) (decode : Json → Option α) :
    ∃ v, loadDataEx r decode = PyResult.ok v := by
  cases r with
  | missing => exact ⟨none, rfl⟩
  | ioError => exact ⟨none, rfl⟩
  | badJson => exact ⟨none, rfl⟩
  | json j =>
    cases hd : decode j with
    | none => exact ⟨none, by simp [loadDataEx, loadDataTryBody, hd]⟩
    | some v => exact ⟨some v, by simp [loadDataEx, loadDataTryBody, hd]⟩

/-- C9: degraded continuation of the optional augment phase. When web
scraping raises, or scrapes no content for any url, _scrape_web_content
returns the upstream research notes structurally unchanged, and the
synthesis phase behaves exactly as it does on the unmodified upstream
artifact (the run proceeds rather than aborting). -/
theorem c9_degraded_continuation (notes : ResearchNotes) (m : String → Option String)
    (h : ∀ u, m u = none) :
    scrapeWebContent (some notes) none (ScrapeOutcome.scrapedMap m) = some notes ∧
    scrapeWebContent (some notes) none ScrapeOutcome.raises = some notes ∧
    ∀ (plansOpt : Option SectionPlans) (cache : Option SythesizedArticle)
      (outcomes : Nat → UnitOutcome) (co : List Nat),
      synthesizeSections plansOpt
        (scrapeWebContent (some notes) none (ScrapeOutcome.scrapedMap m))
        cache outcomes co =
      synthesizeSections plansOpt (some notes) cache outcomes co := by
  have h1 : scrapeWebContent (some notes) none (ScrapeOutcome.scrapedMap m) =
      some notes := by
    simp [scrapeWebContent, updateNotes_no_content notes m h]
  have h2 : scrapeWebContent (some notes) none ScrapeOutcome.raises = some notes := by
    simp [scrapeWebContent]
  exact ⟨h1, h2, fun plansOpt cache outcomes co => by rw [h1]⟩

/-- C9 witness: concrete research notes pass through unchanged when
every scrape yields nothing, and synthesis proceeds on them. -/
theorem c9_witness :
    scrapeWebContent (some sampleNotes) none
      (ScrapeOutcome.scrapedMap fun _ => none) = some sampleNotes ∧
    scrapeWebContent (some sampleNotes) none ScrapeOutcome.raises = some sampleNotes ∧
    synthesizeSections (some samplePlans)
      (scrapeWebContent (some sampleNotes) none
        (ScrapeOutcome.scrapedMap fun _ => none))
      none (fun _ => UnitOutcome.parsed none) [] =
    synthesizeSections (some samplePlans) (some sampleNotes) none
      (fun _ => UnitOutcome.parsed none) [] := by
  have h := c9_degraded_continuation sampleNotes (fun _ => none) (fun _ => rfl)
  exact ⟨h.1, h.2.1, h.2.2 (some samplePlans) none (fun _ => UnitOutcome.parsed none) []⟩

theorem researchLoop_attempt_success {att : SectionPlan → Nat → Option SectionResearchNotes}
    {recov : SectionPlan → Option SectionPlan} {M : Nat} {sid : String}
    {rc : Nat} {plan : SectionPlan} {recUsed : Bool} {tried : List SectionPlan}
    {note : SectionResearchNotes}
    (hrc : rc ≤ M) (hatt : att plan rc = some note) :
    researchLoop att recov M sid rc plan recUsed tried =
      { note := some note, succeeded := true, attemptPlans := tried ++ [plan],
        recoveryInvoked := recUsed } := by
  rw [researchLoop]
  simp [hrc, hatt]

theorem researchLoop_attempt_fail_mid {att : SectionPlan → Nat → Option SectionResearchNotes}
    {recov : SectionPlan → Option SectionPlan} {M : Nat} {sid : String}
    {rc : Nat} {plan : SectionPlan} {recUsed : Bool} {tried : List SectionPlan}
    (hrc : rc ≤ M) (hatt : att plan rc = none) (h2 : rc + 1 ≤ M) (h3 : ¬ rc + 1 = M) :
    researchLoop att recov M sid rc plan recUsed tried =
      researchLoop att recov M sid (rc + 1) plan recUsed (tried ++ [plan]) := by
  rw [researchLoop]
  simp [hrc, hatt, h2, h3]

theorem researchLoop_attempt_fail_recovery_some
    {att : SectionPlan → Nat → Option SectionResearchNotes}
    {recov : SectionPlan → Option SectionPlan} {M : Nat} {sid : String}
    {rc : Nat} {plan p : SectionPlan} {recUsed : Bool} {tried : List SectionPlan}
    (hrc : rc ≤ M) (hatt : att plan rc = none) (h2 : rc + 1 = M)
    (hrecov : recov plan = some p) :
    researchLoop att recov M sid rc plan recUsed tried =
      researchLoop att recov M sid (rc + 1) p true (tried ++ [plan]) := by
  rw [researchLoop]
  simp [hrc, hatt, h2, hrecov]

theorem researchLoop_attempt_fail_recovery_none
    {att : SectionPlan → Nat → Option SectionResearchNotes}
    {recov : SectionPlan → Option SectionPlan} {M : Nat} {sid : String}
    {rc : Nat} {plan : SectionPlan} {recUsed : Bool} {tried : List SectionPlan}
    (hrc : rc ≤ M) (hatt : att plan rc = none) (h2 : rc + 1 = M)
    (hrecov : recov plan = none) :
    researchLoop att recov M sid rc plan recUsed tried =
      { note := none, succeeded := false, attemptPlans := tried ++ [plan],
        recoveryInvoked := true } := by
  rw [researchLoop]
  simp [hrc, hatt, h2, hrecov]

theorem researchLoop_attempt_fail_final
    {att : SectionPlan → Nat → Option SectionResearchNotes}
    {recov : SectionPlan → Option SectionPlan} {M : Nat} {sid : String}
    {rc : Nat} {plan : SectionPlan} {recUsed : Bool} {tried : List SectionPlan}
    (hrc : rc ≤ M) (hatt : att plan rc = none) (h2 : ¬ rc + 1 ≤ M) :
    researchLoop att recov M sid rc plan recUsed tried =
      { note := some (emptyNote sid M), succeeded := false,
        attemptPlans := tried ++ [plan], recoveryInvoked := recUsed } := by
  rw [researchLoop]
  simp [hrc, hatt, h2]

theorem researchLoop_success_at {att : SectionPlan → Nat → Option SectionResearchNotes}
    {recov : SectionPlan → Option SectionPlan} {M : Nat} {sid : String}
    {plan : SectionPlan} {note : SectionResearchNotes} {j : Nat}
    (hjM : j < M) (hfail : ∀ n, n < j → att plan n = none)
    (hsucc : att plan j = some note) :
    ∀ (fuel rc : Nat) (recUsed : Bool) (tried : List SectionPlan),
      rc + fuel = j →
      researchLoop att recov M sid rc plan recUsed tried =
        { note := some note, succeeded := true,
          attemptPlans := tried ++ List.replicate fuel plan ++ [plan],
          recoveryInvoked := recUsed } := by
  intro fuel
  induction fuel with
  | zero =>
    intro rc recUsed tried hrc
    have hj : rc = j := by omega
    subst hj
    rw [researchLoop_attempt_success (by omega) hsucc]
    simp
  | succ k ih =>
    intro rc recUsed tried hrc
    rw [researchLoop_attempt_fail_mid (by omega) (hfail rc (by omega))
      (by omega) (by omega)]
    rw [ih (rc + 1) recUsed (tried ++ [plan]) (by omega)]
    simp [List.replicate_succ]

theorem researchLoop_allfail_at {att : SectionPlan → Nat → Option SectionResearchNotes}
    {recov : SectionPlan → Option SectionPlan} {M : Nat} {sid : String}
    {plan p : SectionPlan}
    (hatt : ∀ q n, att q n = none) (hrecov : recov plan = some p) :
    ∀ (fuel rc : Nat) (recUsed : Bool) (tried : List SectionPlan),
      rc + fuel = M → 1 ≤ fuel →
      researchLoop att recov M sid rc plan recUsed tried =
        { note := some (emptyNote sid M), succeeded := false,
          attemptPlans := tried ++ List.replicate fuel plan ++ [p],
          recoveryInvoked := true } := by
  intro fuel
  induction fuel with
  | zero =>
    intro rc recUsed tried hrc hf
    omega
  | succ k ih =>
    intro rc recUsed tried hrc hf
    by_cases hk : k = 0
    · subst hk
      rw [researchLoop_attempt_fail_recovery_some (by omega) (hatt plan rc)
        (by omega) hrecov]
      rw [researchLoop_attempt_fail_final (by omega) (hatt p (rc + 1)) (by omega)]
      have hM : rc + 1 = M := by omega
      subst hM
      simp [List.replicate_succ]
    · rw [researchLoop_attempt_fail_mid (by omega) (hatt plan rc) (by omega) (by omega)]
      rw [ih (rc + 1) recUsed (tried ++ [plan]) (by omega) (by omega)]
      simp [List.replicate_succ]

/-- C1 (code bug): with one input section plan whose every research
attempt fails and whose recovery attempt also fails, the break at line
267 exits the while loop without appending the placeholder note, so the
per-section research path produces zero records for one input section:
the output id set omits the section, contradicting coverage
completeness. -/
theorem c1_recovery_failure_omits_section :
    researchSectionsNotes (fun _ _ => none) (fun _ => none) 1 [samplePlan] = [] ∧
    [samplePlan].length = 1 := by
  have hx : researchSection (fun _ _ => none) (fun _ => none) 1 samplePlan =
      { note := none, succeeded := false, attemptPlans := [samplePlan],
        recoveryInvoked := true } := by
    unfold researchSection
    rw [researchLoop_attempt_fail_recovery_none (by omega) rfl rfl rfl]
    simp
  exact ⟨by simp [researchSectionsNotes, hx], rfl⟩

/-- C4: retry bound with one-shot recovery, for any configured
max_retries of at least one. First part: a section whose attempts fail
exactly max_retries minus one times and then succeed ends Succeeded
after max_retries attempts, all on the original plan, with the recovery
step never invoked. Second part: a section whose every attempt fails and
whose recovery produces an improved plan ends Failed with the
placeholder note after exactly max_retries plus one attempts, the
recovery step invoked exactly once, and the improved plan used for
exactly the one final attempt. -/
theorem c4_retry_bound (M : Nat) (hM : 1 ≤ M) (plan p : SectionPlan)
    (recov : SectionPlan → Option SectionPlan) :
    (∀ (att : SectionPlan → Nat → Option SectionResearchNotes)
       (note : SectionResearchNotes),
       (∀ n, n < M - 1 → att plan n = none) → att plan (M - 1) = some note →
       researchSection att recov M plan =
         { note := some note, succeeded := true,
           attemptPlans := List.replicate (M - 1) plan ++ [plan],
           recoveryInvoked := false }) ∧
    (∀ att : SectionPlan → Nat → Option SectionResearchNotes,
       (∀ q n, att q n = none) → recov plan = some p →
       researchSection att recov M plan =
         { note := some (emptyNote (toString plan.section_id) M),
           succeeded := false,
           attemptPlans := List.replicate M plan ++ [p],
           recoveryInvoked := true }) := by
  constructor
  · intro att note hfail hsucc
    unfold researchSection
    rw [researchLoop_success_at (by omega) hfail hsucc (M - 1) 0 false [] (by omega)]
    simp
  · intro att hatt hrecov
    unfold researchSection
    rw [researchLoop_allfail_at hatt hrecov M 0 false [] (by omega) (by omega)]
    simp

/-- C4 witness: both retry-bound scenarios at max_retries equal to two. -/
theorem c4_retry_bound_witness :
    researchSection attSucceedLast recovImproved 2 samplePlan =
      { note := some sampleNote, succeeded := true,
        attemptPlans := List.replicate 1 samplePlan ++ [samplePlan],
        recoveryInvoked := false } ∧
    researchSection attAlwaysFail recovImproved 2 samplePlan =
      { note := some (emptyNote (toString samplePlan.section_id) 2),
        succeeded := false,
        attemptPlans := List.replicate 2 samplePlan ++ [recoveredPlan],
        recoveryInvoked := true } := by
  have h := c4_retry_bound 2 (by omega) samplePlan recoveredPlan recovImproved
  refine ⟨h.1 attSucceedLast sampleNote ?_ ?_, h.2 attAlwaysFail (fun q n => rfl) rfl⟩
  · intro n hn
    have : n = 0 := by omega
    subst this
    rfl
  · rfl

theorem gather_successes_contents (plans : List SectionPlan)
    (notes : List SectionResearchNotes) (outcomes : Nat → UnitOutcome)
    (co : List Nat) :
    ((gatherResults outcomes (pairablePlans plans notes).length co).filterMap
        (fun r => r.extracted)).map (fun s => s.content) =
      planOrderBodies plans notes outcomes := by
  simp only [gatherResults, planOrderBodies, List.map_filterMap, List.filterMap_map]
  apply List.filterMap_congr
  intro i _
  simp only [Function.comp_def]
  cases hoc : outcomes i with
  | runRaised => rfl
  | parsed s => cases s <;> rfl

/-- C5: order preservation in synthesis aggregation. Whenever the
synthesis phase produces an article, its full_text_for_editing joins the
successfully synthesized section bodies in original plan declaration
order (the i-th dispatched unit belongs to the i-th pairable plan), and
the result of the phase is identical under any other completion order of
the concurrent units. -/
theorem c5_order_preservation (plans : SectionPlans) (notes : ResearchNotes)
    (outcomes : Nat → UnitOutcome) (co co' : List Nat) (res : SythesizedArticle)
    (h : synthesizeSections (some plans) (some notes) none outcomes co = some res) :
    res.full_text_for_editing =
      some (String.intercalate sepLine
        (planOrderBodies plans.section_plans notes.notes_by_section outcomes)) ∧
    synthesizeSections (some plans) (some notes) none outcomes co' = some res := by
  have hco : synthesizeSections (some plans) (some notes) none outcomes co' =
      synthesizeSections (some plans) (some notes) none outcomes co := rfl
  refine ⟨?_, by rw [hco]; exact h⟩
  simp only [synthesizeSections] at h
  obtain ⟨pr, hcore, hfst⟩ := Option.map_eq_some'.mp h
  simp only [synthesizeCore] at hcore
  split at hcore
  · cases hcore
  · split at hcore
    · cases hcore
    · split at hcore
      · cases hcore
      · rw [← hfst]
        cases hcore
        simp only []
        rw [gather_successes_contents]

/-- C5 witness: two pairable sections, unit 2 completing before unit 1,
still join in plan order. -/
theorem c5_order_preservation_witness :
    ({ sections := [{ section_id := 1, title := "Intro", content := "one" },
                    { section_id := 2, title := "Second", content := "two" }],
       full_text_for_editing := some ("one" ++ sepLine ++ "two") } :
        SythesizedArticle).full_text_for_editing =
      some (String.intercalate sepLine
        (planOrderBodies [samplePlan, samplePlanTwo]
          [sampleNote, sampleNoteTwo] outcomesBothSucceed)) ∧
    synthesizeSections (some { section_plans := [samplePlan, samplePlanTwo],
                               article_brief := sampleBrief })
      (some { notes_by_section := [sampleNote, sampleNoteTwo] }) none
      outcomesBothSucceed [0, 1] =
      some { sections := [{ section_id := 1, title := "Intro", content := "one" },
                          { section_id := 2, title := "Second", content := "two" }],
             full_text_for_editing := some ("one" ++ sepLine ++ "two") } := by
  have h := c5_order_preservation
    { section_plans := [samplePlan, samplePlanTwo], article_brief := sampleBrief }
    { notes_by_section := [sampleNote, sampleNoteTwo] }
    outcomesBothSucceed [1, 0] [0, 1]
    { sections := [{ section_id := 1, title := "Intro", content := "one" },
                   { section_id := 2, title := "Second", content := "two" }],
      full_text_for_editing := some ("one" ++ sepLine ++ "two") }
    (by decide)
  exact h

/-- C6 counterexample: with two pairable sections where unit 1 raises
inside Runner.run and unit 2 succeeds, asyncio.gather propagates the
exception, the except branch returns None, and the sibling's successful
result is discarded, contradicting the claim. -/
theorem c6_counterexample : ¬ synthesisPartialToleranceClaim := by
  intro hcl
  have h := hcl { section_plans := [samplePlan, samplePlanTwo],
                  article_brief := sampleBrief }
    { notes_by_section := [sampleNote, sampleNoteTwo] }
    outcomesRaisedFirst [] ⟨1, by decide, by decide⟩
  rw [show synthesizeSections
      (some { section_plans := [samplePlan, samplePlanTwo],
              article_brief := sampleBrief })
      (some { notes_by_section := [sampleNote, sampleNoteTwo] }) none
      outcomesRaisedFirst [] = none by decide] at h
  cases h

/-- C6 amended: the fan-in is partial-failure tolerant for extraction
failures only. When no dispatched task raises, every unit's result is
inspected: if at least one extraction succeeds the phase returns an
article and the core reports the exact count of failed extractions, and
if every extraction fails the phase returns no artifact. A task that
raises, however, makes the whole phase return None, discarding sibling
results (see the counterexample). -/
theorem c6_tolerant_fanin (plans : SectionPlans) (notes : ResearchNotes)
    (outcomes : Nat → UnitOutcome) (co : List Nat)
    (hNoRaise : ∀ i, (outcomes i).isRaised = false) :
    ((∃ i, i < (pairablePlans plans.section_plans notes.notes_by_section).length ∧
        (outcomes i).extracted.isSome = true) →
      ∃ art, synthesizeCore plans.section_plans notes.notes_by_section outcomes co =
          some (art,
            (gatherResults outcomes
              (pairablePlans plans.section_plans notes.notes_by_section).length
              co).countP (fun r => r.isParseFailure)) ∧
        synthesizeSections (some plans) (some notes) none outcomes co = some art) ∧
    ((∀ i, i < (pairablePlans plans.section_plans notes.notes_by_section).length →
        (outcomes i).extracted = none) →
      synthesizeSections (some plans) (some notes) none outcomes co = none) := by
  have hraise : (gatherResults outcomes
      (pairablePlans plans.section_plans notes.notes_by_section).length co).any
      (fun r => r.isRaised) = false := by
    rw [List.any_eq_false]
    intro r hr
    simp only [gatherResults, List.mem_map] at hr
    obtain ⟨i, _, hi⟩ := hr
    rw [← hi, hNoRaise i]
    exact fun hh => by cases hh
  constructor
  · rintro ⟨i, hi, hsome⟩
    have htasks : (pairablePlans plans.section_plans notes.notes_by_section).isEmpty
        = false := by
      simp only [List.isEmpty_eq_false]
      intro he
      rw [he] at hi
      cases hi
    obtain ⟨s, hs⟩ := Option.isSome_iff_exists.mp hsome
    have hmem : s ∈ (gatherResults outcomes
        (pairablePlans plans.section_plans notes.notes_by_section).length co).filterMap
        (fun r => r.extracted) := by
      refine List.mem_filterMap.mpr ⟨outcomes i, ?_, hs⟩
      exact List.mem_map.mpr ⟨i, List.mem_range.mpr hi, rfl⟩
    have hne : ((gatherResults outcomes
        (pairablePlans plans.section_plans notes.notes_by_section).length co).filterMap
        (fun r => r.extracted)).isEmpty = false := by
      simp only [List.isEmpty_eq_false]
      intro he
      rw [he] at hmem
      cases hmem
    refine ⟨aggregatedArticle plans.section_plans notes.notes_by_section outcomes co,
      ?_, ?_⟩
    · simp only [synthesizeCore, htasks, hraise, hne, aggregatedArticle]
      simp
    · simp only [synthesizeSections, synthesizeCore, htasks, hraise, hne,
        aggregatedArticle]
      simp
  · intro hall
    have hnil : (gatherResults outcomes
        (pairablePlans plans.section_plans notes.notes_by_section).length co).filterMap
        (fun r => r.extracted) = [] := by
      refine List.filterMap_eq_nil_iff.mpr ?_
      intro r hr
      simp only [gatherResults, List.mem_map] at hr
      obtain ⟨i, hmem, hi⟩ := hr
      rw [← hi]
      exact hall i (List.mem_range.mp hmem)
    simp only [synthesizeSections, synthesizeCore, hraise, hnil]
    simp

/-- C6 witness: with no raising task, one extraction success and one
extraction failure, the phase returns an article and the core reports
one failed unit. -/
theorem c6_tolerant_fanin_witness :
    ∃ art, synthesizeCore [samplePlan, samplePlanTwo] [sampleNote, sampleNoteTwo]
        outcomesOneParseFail [] =
        some (art,
          (gatherResults outcomesOneParseFail
            (pairablePlans [samplePlan, samplePlanTwo]
              [sampleNote, sampleNoteTwo]).length []).countP
            (fun r => r.isParseFailure)) ∧
      synthesizeSections
        (some { section_plans := [samplePlan, samplePlanTwo],
                article_brief := sampleBrief })
        (some { notes_by_section := [sampleNote, sampleNoteTwo] }) none
        outcomesOneParseFail [] = some art :=
  (c6_tolerant_fanin
    { section_plans := [samplePlan, samplePlanTwo], article_brief := sampleBrief }
    { notes_by_section := [sampleNote, sampleNoteTwo] }
    outcomesOneParseFail []
    (fun i => by
      unfold outcomesOneParseFail
      split <;> rfl)).1
    ⟨0, by decide, by decide⟩

theorem synthesizeSections_notes_none (plansOpt : Option SectionPlans)
    (cache : Option SythesizedArticle) (outcomes : Nat → UnitOutcome)
    (co : List Nat) :
    synthesizeSections plansOpt none cache outcomes co = none := by
  cases plansOpt <;> rfl

theorem synthGenInvoked_notes_none (plansOpt : Option SectionPlans)
    (cache : Option SythesizedArticle) :
    synthGenInvoked plansOpt none cache = false := by
  cases plansOpt <;> rfl

theorem bounded_if_singleton (b : Bool) (k bd : Nat) (hk : k ≤ bd) :
    ((if b then [k] else []).all fun q => q ≤ bd) = true := by
  cases b <;> simp [hk]

/-- C2 counterexample: when the required research phase yields no
artifact the run does not terminate: display_phase_start still fires for
phases 3 through 6 (run has an early return only after a failed plan
phase), contradicting the claim as stated. -/
theorem c2_counterexample : ¬ requiredPhaseHaltClaim := by
  intro hcl
  have h := ((hcl failingResearchOracles).2.1 rfl).1
  rw [show (runWorkflow failingResearchOracles).phasesStarted = [1, 2, 3, 4, 5, 6]
    from rfl] at h
  simp at h

/-- C2 amended: only a failed plan phase terminates the run immediately
(phases 2 to 6 never start). A required phase among research, synthesize
and finalize that yields no artifact does not stop the remaining phases
from starting, but every remaining phase skips by its input guard, so no
generator after the failed phase is ever invoked. -/
theorem c2_required_failure_skips_generators (o : RunOracles) :
    ((runWorkflow o).planArtifact = none →
      (runWorkflow o).phasesStarted = [1] ∧
      ((runWorkflow o).gensInvoked.all fun q => q ≤ 1) = true) ∧
    ((runWorkflow o).researchArtifact = none →
      ((runWorkflow o).gensInvoked.all fun q => q ≤ 2) = true) ∧
    ((runWorkflow o).synthArtifact = none →
      ((runWorkflow o).gensInvoked.all fun q => q ≤ 4) = true) ∧
    ((runWorkflow o).finalArtifact = none →
      ((runWorkflow o).gensInvoked.all fun q => q ≤ 5) = true) := by
  cases hplan : planPhaseResult o.planCache o.planGen with
  | none =>
    refine ⟨fun _ => ⟨?_, ?_⟩, fun _ => ?_, fun _ => ?_, fun _ => ?_⟩ <;>
      simp only [runWorkflow, hplan] <;>
      cases planGenInvoked o.planCache <;> simp
  | some p =>
    refine ⟨fun hnone => ?_, fun hnone => ?_, fun hnone => ?_, fun hnone => ?_⟩
    · simp [runWorkflow, hplan] at hnone
    · simp only [runWorkflow, hplan] at hnone ⊢
      rw [hnone]
      simp only [scrapeWebContent, scrapeGenInvoked,
        synthesizeSections_notes_none, synthGenInvoked_notes_none,
        createFinalArticle, finalGenInvoked, enhanceWithGemini, geminiGenInvoked]
      simp only [List.all_append, if_neg, Bool.false_eq_true, ite_false]
      simp [bounded_if_singleton]
    · simp only [runWorkflow, hplan] at hnone ⊢
      rw [hnone]
      simp only [createFinalArticle, finalGenInvoked, enhanceWithGemini,
        geminiGenInvoked]
      simp only [List.all_append]
      simp [bounded_if_singleton]
    · simp only [runWorkflow, hplan] at hnone ⊢
      rw [hnone]
      simp only [geminiGenInvoked]
      simp only [List.all_append]
      simp [bounded_if_singleton]

/-- C2 witness: the amended theorem applied to the failing-research
oracles shows no generator after phase 2 runs. -/
theorem c2_required_failure_witness :
    ((runWorkflow failingResearchOracles).gensInvoked.all fun q => q ≤ 2) = true :=
  (c2_required_failure_skips_generators failingResearchOracles).2.1 rfl

end AgenticBlog
